import Mathlib

/-!
Verification development for the anifox-find catalog server.

The Go sources are shallowly embedded: pure fragments become Lean
functions, the SQLite/PostgreSQL table becomes an explicit list of rows,
the network becomes an oracle mapping an identifier to the remote
response, and each handler becomes a function from its inputs to the
response it writes.  Machine integers are modelled as `Int`/`Nat`
(no value in these code paths ever approaches an overflow boundary).
-/

/-- `Aired` (internal/models/anime.go and the parser files): the two
timestamps of the airing interval.  `time.Time` instants are modelled as
abstract integers; the Go zero value of `time.Time` is modelled as `0`. -/
structure Aired where
  fromTime : Int
  toTime : Int
deriving DecidableEq

/-- The Go zero value of the `Aired` struct (both `time.Time` fields unset). -/
def Aired.zero : Aired := ⟨0, 0⟩

/-- `Anime` (internal/models/anime.go): the canonical in-memory record. -/
structure Anime where
  id : Int
  url : String
  title : String
  image : String
  episodes : Int
  aired : Aired
  synopsis : String
deriving DecidableEq

/-- One row of the `anime` table (migrations/000002_create_anime_table.up.sql):
`id` primary key, `url`, `title NOT NULL`, nullable `image`, `episodes`,
`aired` (JSON-serialized interval; `none` models an empty/NULL column,
`some a` models the serialized form of `a`), `synopsis`, `updated`. -/
structure AnimeRow where
  id : Int
  url : String
  title : String
  image : Option String
  episodes : Int
  aired : Option Aired
  synopsis : String
  updated : Int
deriving DecidableEq

/-- Errors surfaced by the database layer. `constraintViolation` models a
constraint rejection (e.g. NOT NULL), `syntaxError` a query the SQL engine
refuses to parse. -/
inductive SqlError
  | constraintViolation
  | syntaxError
deriving DecidableEq

/-! ## External catalog client (main.go `GetAnimeByID`, duplicated as
`getAnimeByID` in the handler file and `GetAnimeByID` in the parser file;
all three classify failures identically). -/

/-- The body of a remote HTTP response, as seen by the client:
it either reads and decodes into an `AnimeResponse` whose `Data` is the
given record, reads but fails to decode, or fails to read. -/
inductive Body
  | decodable (data : Anime)
  | undecodable
  | unreadable
deriving DecidableEq

/-- What the remote interaction produced.  `noResponse` covers every case
in which `httpClient.Do` returns an error: connection failure, the
client's 10s per-call timeout, or an expired context deadline. -/
inductive RemoteResponse
  | noResponse
  | response (status : Nat) (body : Body)
deriving DecidableEq

/-- The errors `GetAnimeByID` can return, one constructor per
`fmt.Errorf` site (main.go lines 63-92). -/
inductive FetchError
  | requestFailed
  | unexpectedStatus (code : Nat)
  | readFailed
  | unmarshalFailed
deriving DecidableEq

/-- The kind of a fetch error: which `fmt.Errorf` site produced it,
forgetting the embedded status code.  Two errors of the same kind are the
same failure classification as far as the caller is concerned. -/
inductive FetchErrorKind
  | requestFailedKind
  | unexpectedStatusKind
  | readFailedKind
  | unmarshalFailedKind
deriving DecidableEq

/-- Map a fetch error to its kind. -/
def FetchError.kind : FetchError → FetchErrorKind
  | .requestFailed => .requestFailedKind
  | .unexpectedStatus _ => .unexpectedStatusKind
  | .readFailed => .readFailedKind
  | .unmarshalFailed => .unmarshalFailedKind

/-- `GetAnimeByID` (main.go lines 63-92): `Do` error → "request failed";
non-200 status → "unexpected status code: %d" (the same branch for 404
and for 5xx); body read error → "read body failed"; undecodable body →
"json unmarshal failed"; otherwise the decoded record is returned. -/
def GetAnimeByID (resp : RemoteResponse) : Except FetchError Anime :=
  match resp with
  | .noResponse => .error .requestFailed
  | .response status body =>
    if status ≠ 200 then .error (.unexpectedStatus status)
    else
      match body with
      | .unreadable => .error .readFailed
      | .undecodable => .error .unmarshalFailed
      | .decodable d => .ok d

/-! ## Ingestion orchestrator (`ParseAnimeAndSaveToDB`, handler.go lines
425-455, identical to `parseAnimeAndSaveToDB` in part_002 lines 286-316). -/

/-- The environment of one ingestion run: what the remote returns for each
identifier (a run is deterministic once the network's behaviour is fixed)
and whether `saveAnime` succeeds for that identifier's record. -/
structure RunEnv where
  remote : Nat → RemoteResponse
  saveOk : Nat → Bool

/-- The observable state accumulated by the loop: the two counters, the
identifiers visited (in order), and the identifiers whose `saveAnime`
returned an error (the "Error saving anime" log lines). -/
structure RunState where
  successCount : Nat
  failCount : Nat
  visited : List Nat
  saveErrors : List Nat
deriving DecidableEq

/-- Counters and logs at the start of a run. -/
def initState : RunState := ⟨0, 0, [], []⟩

/-- Whether the fetch of identifier `i` succeeds in environment `env`. -/
def fetchOk (env : RunEnv) (i : Nat) : Bool :=
  match GetAnimeByID (env.remote i) with
  | .ok _ => true
  | .error _ => false

/-- One iteration of the loop body of `ParseAnimeAndSaveToDB`:
a fetch error increments `failCount` and continues; on fetch success a
`saveAnime` error is only logged, and `successCount` is incremented
unconditionally afterwards. -/
def runStep (env : RunEnv) (st : RunState) (i : Nat) : RunState :=
  match GetAnimeByID (env.remote i) with
  | .error _ =>
    { st with failCount := st.failCount + 1, visited := st.visited ++ [i] }
  | .ok _ =>
    if env.saveOk i then
      { st with successCount := st.successCount + 1, visited := st.visited ++ [i] }
    else
      { st with successCount := st.successCount + 1, visited := st.visited ++ [i],
                saveErrors := st.saveErrors ++ [i] }

/-- `ParseAnimeAndSaveToDB` (handler.go lines 425-455): `for i := 1;
i <= size; i++` over the loop body above.  The 350ms inter-request sleep
changes no observable state and the function always returns nil, so the
model returns the final counters/logs. -/
def ParseAnimeAndSaveToDB (env : RunEnv) (size : Nat) : RunState :=
  (List.range' 1 size).foldl (runStep env) initState


/-! ## Upsert store

Two `saveAnime` implementations exist in the repository.

The one in handler.go lines 384-423 (package `internal`) runs against the
PostgreSQL schema of migrations/000002 (`id SERIAL PRIMARY KEY`): its
INSERT column list omits `id`, so the database assigns the next sequence
value, while the statement still says `ON CONFLICT(id) DO UPDATE SET ...`.

The one in src/unnamed/part_002 lines 135-176 runs against SQLite
(`id INTEGER PRIMARY KEY`) and does include `id` in the column list.

A Go `string` is never SQL NULL, so the `title TEXT NOT NULL` column
constraint is checked against `some title` on every insert. -/

/-- Equality of database results is decidable (used to evaluate the
model at concrete inputs). -/
instance {e a : Type} [DecidableEq e] [DecidableEq a] : DecidableEq (Except e a) :=
  fun x y =>
    match x, y with
    | .ok v, .ok w => decidable_of_iff (v = w) (by simp)
    | .error v, .error w => decidable_of_iff (v = w) (by simp)
    | .ok _, .error _ => isFalse (by simp)
    | .error _, .ok _ => isFalse (by simp)

/-- The `anime` table plus the state of the `id` sequence (`SERIAL`):
`seq` is the next value the sequence will hand out. -/
structure Store where
  rows : List AnimeRow
  seq : Int
deriving DecidableEq

namespace Handler

/-- `saveAnime` (handler.go lines 384-423): INSERT without the `id`
column — PostgreSQL draws the row's id from the sequence — followed by
`ON CONFLICT(id) DO UPDATE SET` on every mutable column and `updated`.
The title parameter is the Go string `anime.Title`, hence never NULL. -/
def saveAnime (s : Store) (now : Int) (anime : Anime) : Except SqlError Store :=
  let titleParam : Option String := some anime.title
  if titleParam.isNone then .error .constraintViolation
  else if s.rows.any (fun r => r.id == s.seq) then
    .ok { rows := s.rows.map (fun r =>
            if r.id == s.seq then
              { r with url := anime.url, title := anime.title,
                       image := some anime.image, episodes := anime.episodes,
                       aired := some anime.aired, synopsis := anime.synopsis,
                       updated := now }
            else r),
          seq := s.seq + 1 }
  else
    .ok { rows := s.rows ++ [⟨s.seq, anime.url, anime.title, some anime.image,
                             anime.episodes, some anime.aired, anime.synopsis, now⟩],
          seq := s.seq + 1 }

end Handler

namespace Parser

/-- `saveAnime` (src/unnamed/part_002 lines 135-176): INSERT that does
include `id`, `ON CONFLICT(id) DO UPDATE SET` every mutable column and
`updated`.  No sequence is involved, so the store is just the row list. -/
def saveAnime (rows : List AnimeRow) (now : Int) (anime : Anime) :
    Except SqlError (List AnimeRow) :=
  let titleParam : Option String := some anime.title
  if titleParam.isNone then .error .constraintViolation
  else if rows.any (fun r => r.id == anime.id) then
    .ok (rows.map (fun r =>
      if r.id == anime.id then
        { r with url := anime.url, title := anime.title,
                 image := some anime.image, episodes := anime.episodes,
                 aired := some anime.aired, synopsis := anime.synopsis,
                 updated := now }
      else r))
  else
    .ok (rows ++ [⟨anime.id, anime.url, anime.title, some anime.image,
                  anime.episodes, some anime.aired, anime.synopsis, now⟩])

end Parser

/-! ## Row decoding (the scan loops of the two read paths) -/

/-- The body of the `rows.Next()` loop of `getAnimePaginated` (handler.go
lines 27-58): `image` is copied from the nullable column (`""` for NULL),
and `aired` is unmarshalled when the serialized column is non-empty,
otherwise left at its zero value. -/
def scanPaginatedRow (r : AnimeRow) : Anime :=
  { id := r.id, url := r.url, title := r.title,
    image := r.image.getD "",
    episodes := r.episodes,
    aired := r.aired.getD Aired.zero,
    synopsis := r.synopsis }

/-- The body of the `rows.Next()` loop of `searchAnimeByTitle` (handler.go
lines 85-102): the image and aired columns are scanned into local
variables but never copied into the record, so the record keeps the Go
zero values `""` and the zero `Aired`. -/
def scanSearchRow (r : AnimeRow) : Anime :=
  { id := r.id, url := r.url, title := r.title,
    image := "",
    episodes := r.episodes,
    aired := Aired.zero,
    synopsis := r.synopsis }

/-! ## SQL ordering (ORDER BY id) modelled as an insertion sort. -/

/-- `x` sorts no later than `y` under `ORDER BY id`. -/
def rowIdLe (x y : AnimeRow) : Prop := x.id ≤ y.id

/-- The same order on decoded records. -/
def animeIdLe (x y : Anime) : Prop := x.id ≤ y.id

instance : DecidableRel rowIdLe :=
  fun x y => inferInstanceAs (Decidable (x.id ≤ y.id))

instance : DecidableRel animeIdLe :=
  fun x y => inferInstanceAs (Decidable (x.id ≤ y.id))

/-- Insert a row into a list at the first position whose id is not
smaller. -/
def insertById (r : AnimeRow) : List AnimeRow → List AnimeRow
  | [] => [r]
  | x :: xs => if r.id ≤ x.id then r :: x :: xs else x :: insertById r xs

/-- `ORDER BY id`: sort the table's rows by ascending id. -/
def orderById : List AnimeRow → List AnimeRow
  | [] => []
  | x :: xs => insertById x (orderById xs)


/-! ## Query layer: search and pagination (handler.go lines 17-105 and
161-275, wired to PostgreSQL through lib/pq in src/server/main.go). -/

/-- Whether `needle` occurs at the start of `hay` (character lists). -/
def charsStartWith : List Char → List Char → Bool
  | [], _ => true
  | _ :: _, [] => false
  | a :: as, b :: bs => a == b && charsStartWith as bs

/-- Whether `needle` occurs somewhere inside `hay` (character lists). -/
def charsContain (needle : List Char) : List Char → Bool
  | [] => charsStartWith needle []
  | hay@(_ :: rest) => charsStartWith needle hay || charsContain needle rest

/-- PostgreSQL `title LIKE '%' || t || '%'`: containment of `t` in the
title, case-SENSITIVE (PostgreSQL `LIKE` does not fold case; `ILIKE`
would). -/
def likeContains (title t : String) : Bool :=
  charsContain t.toList title.toList

/-- The SQL text of `searchAnimeByTitle` (handler.go line 75). -/
def animeSearchQuery : String := "SELECT * FROM anime WHERE title LIKE ?"

/-- The SQL text of `getAnimePaginated` (handler.go line 18). -/
def animePaginatedQuery : String := "SELECT * FROM anime ORDER BY id LIMIT $1 OFFSET $2"

/-- lib/pq hands the SQL text to PostgreSQL verbatim and binds parameters
only through `$n` placeholders; a literal `?` reaches the PostgreSQL
parser, which rejects the statement with a syntax error.  So a query is
accepted exactly when it contains no `?`. -/
def pqAcceptsQuery (q : String) : Bool :=
  !(q.toList.any (fun c => c == '?'))

/-- The result-set construction of `searchAnimeByTitle`'s query and scan
loop: the rows whose title passes the LIKE filter, decoded by the search
scan (which drops image and aired). -/
def searchRowsMatching (rows : List AnimeRow) (title : String) : List Anime :=
  (rows.filter (fun r => likeContains r.title title)).map scanSearchRow

/-- `searchAnimeByTitle` (handler.go lines 74-105) as executed through
lib/pq against PostgreSQL: the query text uses a `?` placeholder, so
`db.Query` fails with a syntax error before any row is produced;
had the statement been accepted, the filtered scan would run. -/
def searchAnimeByTitle (rows : List AnimeRow) (title : String) :
    Except SqlError (List Anime) :=
  if pqAcceptsQuery animeSearchQuery then .ok (searchRowsMatching rows title)
  else .error .syntaxError

/-- Go `strings.TrimSpace`: strip leading and trailing whitespace. -/
def trimSpace (s : String) : String :=
  ⟨((s.toList.dropWhile Char.isWhitespace).reverse.dropWhile Char.isWhitespace).reverse⟩

/-- What `HandleSearchAnime` writes: the HTTP status and whether the
store was queried at all. -/
structure SearchResponse where
  status : Nat
  queriedStore : Bool
deriving DecidableEq

/-- `HandleSearchAnime` (handler.go lines 252-275) on a GET request:
trim the `title` query parameter; if the result is empty answer 400
without touching the store; otherwise run the search, answering 500 on a
database error and 200 with the results otherwise. -/
def HandleSearchAnime (rows : List AnimeRow) (titleParam : String) : SearchResponse :=
  let titleQuery := trimSpace titleParam
  if titleQuery = "" then ⟨400, false⟩
  else
    match searchAnimeByTitle rows titleQuery with
    | .error _ => ⟨500, true⟩
    | .ok _ => ⟨200, true⟩

/-- `getAnimePaginated` (handler.go lines 17-66): `SELECT * FROM anime
ORDER BY id LIMIT limit OFFSET offset`, each row decoded by the paginated
scan loop. -/
def getAnimePaginated (rows : List AnimeRow) (offset limit : Nat) : List Anime :=
  (((orderById rows).drop offset).take limit).map scanPaginatedRow

/-- `getTotalAnimeCount` (handler.go lines 68-72): `SELECT COUNT(*)`. -/
def getTotalAnimeCount (rows : List AnimeRow) : Nat := rows.length

/-- The `meta` object of the list response. -/
structure ListMeta where
  page : Nat
  limit : Nat
  total : Nat
  totalPages : Nat
deriving DecidableEq

/-- The JSON body written by `HandleAnimeList`. -/
structure ListResponse where
  data : List Anime
  meta : ListMeta
deriving DecidableEq

/-- Validation of the `page` query parameter (handler.go lines 168-175):
a parsed value is used only when positive, otherwise the default 1.
`none` covers both an absent parameter and an `Atoi` failure. -/
def pageOf (pageParam : Option Int) : Nat :=
  match pageParam with
  | some p => if 0 < p then p.toNat else 1
  | none => 1

/-- Validation of the `limit` query parameter (handler.go lines 177-181):
a parsed value is used only when in (0, 100], otherwise the default 20. -/
def limitOf (limitParam : Option Int) : Nat :=
  match limitParam with
  | some l => if 0 < l ∧ l ≤ 100 then l.toNat else 20
  | none => 20

/-- `HandleAnimeList` (handler.go lines 161-219) on a GET request:
validate `page` and `limit`, compute `offset := (page-1)*limit`, read the
page and the total count, and emit data plus meta.  The Go code computes
`totalPages` as `int(math.Ceil(float64(total) / float64(limit)))`; with
`limit ∈ [1,100]` the float64 quotient is exact enough that this equals
the integer ceiling for every total below 2^45, which the model uses. -/
def HandleAnimeList (rows : List AnimeRow) (pageParam limitParam : Option Int) :
    ListResponse :=
  let page := pageOf pageParam
  let limit := limitOf limitParam
  let offset := (page - 1) * limit
  let animeList := getAnimePaginated rows offset limit
  let total := getTotalAnimeCount rows
  { data := animeList,
    meta := { page := page, limit := limit, total := total,
              totalPages := (total + limit - 1) / limit } }

/-! ## Concrete inputs used to evaluate the model. -/

/-- A concrete record with id 7, as in spec Scenario B. -/
def a7 : Anime := ⟨7, "u7", "A", "img", 12, ⟨1, 2⟩, "syn"⟩

/-- A record whose title is the empty string. -/
def aEmpty : Anime := ⟨1, "u", "", "", 0, ⟨0, 0⟩, ""⟩

/-- An empty table with the id sequence at its initial value 1. -/
def store0 : Store := ⟨[], 1⟩

/-- A stored row titled "Fox" with non-empty image and aired columns. -/
def foxRow : AnimeRow := ⟨1, "u", "Fox", some "img", 3, some ⟨4, 5⟩, "s", 0⟩

/-- A run environment in which identifier 1 fetches fine but its save
fails, and every other fetch errors. -/
def env2 : RunEnv :=
  ⟨fun i => if i = 1 then .response 200 (.decodable a7) else .noResponse,
   fun _ => false⟩

/-- A run environment modelling the aggregate deadline expiring after
identifier 1: from identifier 2 on, `httpClient.Do` fails immediately
with the expired context.  Saves succeed. -/
def env8 : RunEnv :=
  ⟨fun i => if i = 1 then .response 200 (.decodable a7) else .noResponse,
   fun _ => true⟩

/-- 25 stored rows with ascending ids 0..24. -/
def rows25 : List AnimeRow :=
  (List.range 25).map (fun n => ⟨Int.ofNat n, "u", "t", none, 0, none, "s", 0⟩)

/-! ## Helper lemmas. -/

/-- Characterization of the loop over any identifier list: identifiers are
appended to `visited` in order, `successCount` counts fetch successes,
`failCount` counts fetch failures, and `saveErrors` collects identifiers
fetched successfully whose save failed. -/
theorem runStep_foldl_spec (env : RunEnv) (l : List Nat) : ∀ st : RunState,
    ((l.foldl (runStep env) st).visited = st.visited ++ l)
    ∧ ((l.foldl (runStep env) st).successCount
        = st.successCount + (l.filter (fun i => fetchOk env i)).length)
    ∧ ((l.foldl (runStep env) st).failCount
        = st.failCount + (l.filter (fun i => !(fetchOk env i))).length)
    ∧ ((l.foldl (runStep env) st).saveErrors
        = st.saveErrors ++ l.filter (fun i => fetchOk env i && !(env.saveOk i))) := by
  induction l with
  | nil => intro st; simp
  | cons i l ih =>
    intro st
    have hfold : ((i :: l).foldl (runStep env) st) = l.foldl (runStep env) (runStep env st i) :=
      rfl
    obtain ⟨h1, h2, h3, h4⟩ := ih (runStep env st i)
    rcases hG : GetAnimeByID (env.remote i) with e | a
    · have hF : fetchOk env i = false := by simp [fetchOk, hG]
      have hst : runStep env st i
          = { st with failCount := st.failCount + 1, visited := st.visited ++ [i] } := by
        simp [runStep, hG]
      refine ⟨?_, ?_, ?_, ?_⟩
      · rw [hfold, h1, hst]; simp
      · rw [hfold, h2, hst]; simp [List.filter_cons, hF]
      · rw [hfold, h3, hst]; simp [List.filter_cons, hF]; omega
      · rw [hfold, h4, hst]; simp [List.filter_cons, hF]
    · have hF : fetchOk env i = true := by simp [fetchOk, hG]
      by_cases hs : env.saveOk i
      · have hst : runStep env st i
            = { st with successCount := st.successCount + 1, visited := st.visited ++ [i] } := by
          simp [runStep, hG, hs]
        refine ⟨?_, ?_, ?_, ?_⟩
        · rw [hfold, h1, hst]; simp
        · rw [hfold, h2, hst]; simp [List.filter_cons, hF]; omega
        · rw [hfold, h3, hst]; simp [List.filter_cons, hF]
        · rw [hfold, h4, hst]; simp [List.filter_cons, hF, hs]
      · have hst : runStep env st i
            = { st with successCount := st.successCount + 1, visited := st.visited ++ [i],
                        saveErrors := st.saveErrors ++ [i] } := by
          simp [runStep, hG, hs]
        refine ⟨?_, ?_, ?_, ?_⟩
        · rw [hfold, h1, hst]; simp
        · rw [hfold, h2, hst]; simp [List.filter_cons, hF]; omega
        · rw [hfold, h3, hst]; simp [List.filter_cons, hF]
        · rw [hfold, h4, hst]
          simp only [List.filter_cons, hF, hs, Bool.not_false, Bool.and_true, if_pos rfl]
          simp

/-- Splitting a list by a boolean predicate preserves total length. -/
theorem filter_length_split (p : Nat → Bool) (l : List Nat) :
    (l.filter p).length + (l.filter (fun i => !(p i))).length = l.length := by
  induction l with
  | nil => simp
  | cons i l ih =>
    by_cases hp : p i <;> simp [List.filter_cons, hp] <;> omega

theorem mem_insertById {r y : AnimeRow} : ∀ {l : List AnimeRow},
    y ∈ insertById r l ↔ y = r ∨ y ∈ l
  | [] => by simp [insertById]
  | x :: xs => by
    by_cases h : r.id ≤ x.id
    · simp [insertById, h]
    · simp [insertById, h, mem_insertById (l := xs)]
      tauto

theorem sorted_insertById {r : AnimeRow} : ∀ {l : List AnimeRow},
    l.Sorted rowIdLe → (insertById r l).Sorted rowIdLe
  | [], _ => by simp [insertById, rowIdLe]
  | x :: xs, h => by
    rw [List.sorted_cons] at h
    obtain ⟨hx, hxs⟩ := h
    by_cases hle : r.id ≤ x.id
    · rw [insertById, if_pos hle, List.sorted_cons]
      refine ⟨?_, by rw [List.sorted_cons]; exact ⟨hx, hxs⟩⟩
      intro b hb
      rcases List.mem_cons.1 hb with rfl | hb
      · exact hle
      · exact le_trans hle (hx b hb)
    · rw [insertById, if_neg hle, List.sorted_cons]
      refine ⟨?_, sorted_insertById hxs⟩
      intro b hb
      rcases mem_insertById.1 hb with rfl | hb
      · exact le_of_lt (lt_of_not_le hle)
      · exact hx b hb

theorem sorted_orderById : ∀ l : List AnimeRow, (orderById l).Sorted rowIdLe
  | [] => by simp [orderById]
  | x :: xs => sorted_insertById (sorted_orderById xs)

theorem orderById_eq_self : ∀ {l : List AnimeRow}, l.Sorted rowIdLe → orderById l = l
  | [], _ => rfl
  | x :: xs, h => by
    rw [List.sorted_cons] at h
    obtain ⟨hx, hxs⟩ := h
    rw [orderById, orderById_eq_self hxs]
    cases xs with
    | nil => rfl
    | cons y ys =>
      rw [insertById, if_pos (show x.id ≤ y.id from hx y (by simp))]

/-- The accepted-or-defaulted limit is always at least 1. -/
theorem one_le_limitOf (limitParam : Option Int) : 1 ≤ limitOf limitParam := by
  cases limitParam with
  | none => simp [limitOf]
  | some l =>
    simp only [limitOf]
    split
    · omega
    · omega

/-- `(t + l - 1) / l` is the ceiling of `t / l`: the two inequalities
pin it as the least multiple-count covering `t`. -/
theorem ceilDiv_bounds (t l : Nat) (hl : 1 ≤ l) :
    t ≤ ((t + l - 1) / l) * l ∧ ((t + l - 1) / l) * l < t + l := by
  have hd : l * ((t + l - 1) / l) + (t + l - 1) % l = t + l - 1 :=
    Nat.div_add_mod _ _
  have hm : (t + l - 1) % l < l := Nat.mod_lt _ (by omega)
  have hc : ((t + l - 1) / l) * l = l * ((t + l - 1) / l) := Nat.mul_comm _ _
  omega

/-- A page never exceeds the requested LIMIT. -/
theorem length_getAnimePaginated (rows : List AnimeRow) (off lim : Nat) :
    (getAnimePaginated rows off lim).length ≤ lim := by
  rw [getAnimePaginated, List.length_map]
  exact List.length_take_le _ _

/-- A page is sorted by ascending id. -/
theorem sorted_getAnimePaginated (rows : List AnimeRow) (off lim : Nat) :
    List.Sorted animeIdLe (getAnimePaginated rows off lim) := by
  rw [getAnimePaginated]
  refine List.pairwise_map.2 ?_
  have h1 := sorted_orderById rows
  have h2 := List.Pairwise.sublist (List.drop_sublist off (orderById rows)) h1
  have h3 := List.Pairwise.sublist (List.take_sublist lim ((orderById rows).drop off)) h2
  exact h3.imp (fun hab => hab)

/-! ## The claims. -/

/-- C1: the claim says N identical `saveAnime` calls for a record with a
fixed id leave exactly one stored row for that id.  The handler.go
`saveAnime` omits `id` from its INSERT column list, so the database
assigns a fresh sequence id on every call and `ON CONFLICT(id)` can never
fire: two identical writes of the record with id 7 on an empty store
leave 2 rows, and no row at all carries id 7. -/
theorem saveAnime_two_identical_writes_two_rows :
    ((Handler.saveAnime store0 10 a7).bind (fun s => Handler.saveAnime s 20 a7)).map
        (fun s => (s.rows.length, (s.rows.filter (fun r => r.id == 7)).length))
      = .ok (2, 0) := by decide

/-- The sibling `saveAnime` of src/unnamed/part_002, which does insert
`id`, really is an upsert: two identical writes leave a single row for
id 7, equal to the single-write row except for `updated`. -/
theorem parser_saveAnime_two_identical_writes_one_row :
    ((Parser.saveAnime [] 10 a7).bind (fun rows => Parser.saveAnime rows 20 a7)).map
        (fun rows => (rows.length, rows.filter (fun r => r.id == 7)))
      = .ok (1, [⟨7, "u7", "A", some "img", 12, some ⟨1, 2⟩, "syn", 20⟩]) := by decide

/-- C2, counterexample: in a run of size 1 where the fetch succeeds and
the upsert fails, the failure counter stays 0 and the success counter
reaches 1 even though the save error was logged — the claim says a
persist error increments the failure counter, not the success counter. -/
theorem parse_save_error_counted_as_success :
    (ParseAnimeAndSaveToDB env2 1).successCount = 1
    ∧ (ParseAnimeAndSaveToDB env2 1).failCount = 0
    ∧ (ParseAnimeAndSaveToDB env2 1).saveErrors = [1] := by decide

/-- C2, amended: a fetch (or decode) error increments the failure counter
and skips the identifier; when the fetch succeeds the success counter is
incremented regardless of whether the upsert succeeds, a failed upsert
being only logged; the loop always proceeds through every identifier. -/
theorem parse_counter_characterization (env : RunEnv) (size : Nat) :
    (ParseAnimeAndSaveToDB env size).visited = List.range' 1 size
    ∧ (ParseAnimeAndSaveToDB env size).successCount
        = ((List.range' 1 size).filter (fun i => fetchOk env i)).length
    ∧ (ParseAnimeAndSaveToDB env size).failCount
        = ((List.range' 1 size).filter (fun i => !(fetchOk env i))).length
    ∧ (ParseAnimeAndSaveToDB env size).saveErrors
        = (List.range' 1 size).filter (fun i => fetchOk env i && !(env.saveOk i)) := by
  obtain ⟨h1, h2, h3, h4⟩ := runStep_foldl_spec env (List.range' 1 size) initState
  refine ⟨?_, ?_, ?_, ?_⟩
  · rw [ParseAnimeAndSaveToDB, h1]; simp [initState]
  · rw [ParseAnimeAndSaveToDB, h2]; simp [initState]
  · rw [ParseAnimeAndSaveToDB, h3]; simp [initState]
  · rw [ParseAnimeAndSaveToDB, h4]; simp [initState]

/-- C3: the orchestrator's identifier ranges are `[1, size]` (`for i := 1;
i <= size; i++`); for any environment and any size ≥ 1 it visits each
identifier of the range exactly once and the counters satisfy
succeeded + failed = attempted = size = size - 1 + 1. -/
theorem parse_visits_range_once_and_counts_sum (env : RunEnv) (b : Nat) (h : 1 ≤ b) :
    (∀ i, i ∈ (ParseAnimeAndSaveToDB env b).visited ↔ 1 ≤ i ∧ i ≤ b)
    ∧ (ParseAnimeAndSaveToDB env b).visited.Nodup
    ∧ (ParseAnimeAndSaveToDB env b).successCount + (ParseAnimeAndSaveToDB env b).failCount
        = b - 1 + 1 := by
  obtain ⟨h1, h2, h3, _⟩ := runStep_foldl_spec env (List.range' 1 b) initState
  have hsum := filter_length_split (fun i => fetchOk env i) (List.range' 1 b)
  have hlen : (List.range' 1 b).length = b := by simp
  refine ⟨?_, ?_, ?_⟩
  · intro i
    rw [ParseAnimeAndSaveToDB, h1]
    simp only [initState, List.nil_append, List.mem_range'_1]
    omega
  · rw [ParseAnimeAndSaveToDB, h1]
    simp only [initState, List.nil_append]
    exact List.nodup_range' _ _
  · rw [ParseAnimeAndSaveToDB, h2, h3]
    simp only [initState]
    omega

/-- C3, witness at `env2` and size 3. -/
theorem parse_visits_range_once_and_counts_sum_witness :
    (∀ i, i ∈ (ParseAnimeAndSaveToDB env2 3).visited ↔ 1 ≤ i ∧ i ≤ 3)
    ∧ (ParseAnimeAndSaveToDB env2 3).visited.Nodup
    ∧ (ParseAnimeAndSaveToDB env2 3).successCount + (ParseAnimeAndSaveToDB env2 3).failCount
        = 3 - 1 + 1 :=
  parse_visits_range_once_and_counts_sum env2 3 (by decide)

/-- C4, counterexample: HTTP 404 and HTTP 503 both land in the single
`unexpected status code: %d` branch of `GetAnimeByID` — the same error
kind — while a connection failure (claimed to be the same `Transient`
kind as a 5xx) produces a different kind.  The claimed three-way
NotFound / Transient / Malformed classification does not exist. -/
theorem fetch_404_and_500_same_error_kind :
    GetAnimeByID (.response 404 .undecodable) = .error (.unexpectedStatus 404)
    ∧ GetAnimeByID (.response 503 .undecodable) = .error (.unexpectedStatus 503)
    ∧ (FetchError.unexpectedStatus 404).kind = (FetchError.unexpectedStatus 503).kind
    ∧ FetchError.requestFailed.kind ≠ (FetchError.unexpectedStatus 503).kind := by decide

/-- C4, amended: `GetAnimeByID` classifies failures by `fmt.Errorf` site:
a connection failure or timeout gives `requestFailed`; ANY non-200 status
(404 and 5xx alike) gives `unexpectedStatus` carrying the numeric code,
with no distinct NotFound kind for 404; an unreadable body gives
`readFailed`; an undecodable body gives `unmarshalFailed`; a decodable
200 response returns the record. -/
theorem fetch_error_classification (status : Nat) (body : Body) (d : Anime) :
    GetAnimeByID .noResponse = .error .requestFailed
    ∧ (status ≠ 200 → GetAnimeByID (.response status body) = .error (.unexpectedStatus status))
    ∧ GetAnimeByID (.response 200 .unreadable) = .error .readFailed
    ∧ GetAnimeByID (.response 200 .undecodable) = .error .unmarshalFailed
    ∧ GetAnimeByID (.response 200 (.decodable d)) = .ok d := by
  refine ⟨rfl, ?_, by simp [GetAnimeByID], by simp [GetAnimeByID], by simp [GetAnimeByID]⟩
  intro h
  simp [GetAnimeByID, h]

/-- C4, witness: the amended classification at status 404 and at a
decodable 200 response. -/
theorem fetch_error_classification_witness :
    GetAnimeByID (.response 404 .undecodable) = .error (.unexpectedStatus 404)
    ∧ GetAnimeByID (.response 200 (.decodable a7)) = .ok a7 :=
  ⟨(fetch_error_classification 404 .undecodable a7).2.1 (by decide),
   (fetch_error_classification 404 .undecodable a7).2.2.2.2⟩

/-- C5: for every store and every pair of query parameters, the list
endpoint returns at most `limit` records, ordered by ascending id,
reports `total` equal to the store size, and `totalPages` equal to the
ceiling of total/limit (pinned by the two product inequalities); and on a
sorted store of 25 rows, page 2 with limit 10 returns the records ranked
11-20 with `totalPages = 3`. -/
theorem list_page_bounds_total_and_scenario :
    (∀ (rows : List AnimeRow) (pageParam limitParam : Option Int),
      (HandleAnimeList rows pageParam limitParam).data.length
          ≤ (HandleAnimeList rows pageParam limitParam).meta.limit
      ∧ List.Sorted animeIdLe (HandleAnimeList rows pageParam limitParam).data
      ∧ (HandleAnimeList rows pageParam limitParam).meta.total = rows.length
      ∧ (HandleAnimeList rows pageParam limitParam).meta.total
          ≤ (HandleAnimeList rows pageParam limitParam).meta.totalPages
            * (HandleAnimeList rows pageParam limitParam).meta.limit
      ∧ (HandleAnimeList rows pageParam limitParam).meta.totalPages
            * (HandleAnimeList rows pageParam limitParam).meta.limit
          < (HandleAnimeList rows pageParam limitParam).meta.total
            + (HandleAnimeList rows pageParam limitParam).meta.limit)
    ∧ (∀ rows : List AnimeRow, List.Sorted rowIdLe rows → rows.length = 25 →
        HandleAnimeList rows (some 2) (some 10)
          = ⟨((rows.drop 10).take 10).map scanPaginatedRow, ⟨2, 10, 25, 3⟩⟩) := by
  constructor
  · intro rows pageParam limitParam
    refine ⟨length_getAnimePaginated _ _ _, sorted_getAnimePaginated _ _ _, rfl, ?_, ?_⟩
    · exact (ceilDiv_bounds rows.length (limitOf limitParam) (one_le_limitOf _)).1
    · exact (ceilDiv_bounds rows.length (limitOf limitParam) (one_le_limitOf _)).2
  · intro rows hs hlen
    have hp : pageOf (some 2) = 2 := by decide
    have hl10 : limitOf (some 10) = 10 := by decide
    have ho : orderById rows = rows := orderById_eq_self hs
    simp only [HandleAnimeList, hp, hl10, getTotalAnimeCount, hlen, getAnimePaginated, ho]

/-- C5, witness: the scenario on 25 concrete rows with ids 0..24. -/
theorem list_page_bounds_total_and_scenario_witness :
    HandleAnimeList rows25 (some 2) (some 10)
      = ⟨((rows25.drop 10).take 10).map scanPaginatedRow, ⟨2, 10, 25, 3⟩⟩ :=
  list_page_bounds_total_and_scenario.2 rows25 (by decide) (by decide)

/-- C6: the claim says `searchByTitle(s)` returns exactly the records
whose title contains `s` case-insensitively.  The search query uses a `?`
placeholder while the sibling paginated query in the same file uses
`$1/$2`; under the server's lib/pq PostgreSQL driver the `?` reaches the
PostgreSQL parser and every search fails with a syntax error, returning
no records at all — here on a store holding a row titled "Fox" searched
with "Fox".  (Even with a correct placeholder, PostgreSQL `LIKE` is
case-sensitive, not the claimed case-insensitive containment.) -/
theorem search_query_rejected_by_postgres :
    searchAnimeByTitle [foxRow] "Fox" = .error .syntaxError
    ∧ pqAcceptsQuery animeSearchQuery = false
    ∧ pqAcceptsQuery animePaginatedQuery = true
    ∧ likeContains "my FOX story" "Fox" = false := by decide

/-- C7, counterexample: `saveAnime` on a record whose title is the empty
string succeeds — no ConstraintViolation — and inserts a row with an
empty title, so the store is not left unchanged. -/
theorem saveAnime_empty_title_inserted :
    Handler.saveAnime store0 5 aEmpty
      = .ok ⟨[⟨1, "u", "", some "", 0, some ⟨0, 0⟩, "", 5⟩], 2⟩ := by decide

/-- C7, amended: the schema's `title TEXT NOT NULL` rejects only SQL
NULL, and the Go string bound to the title parameter is never NULL, so an
upsert with an empty title is not rejected: the call returns no
ConstraintViolation, succeeds, and advances the store (the id sequence
moves, a row having been written). -/
theorem saveAnime_accepts_empty_title (s : Store) (now : Int) (a : Anime)
    (_h : a.title = "") :
    Handler.saveAnime s now a ≠ .error .constraintViolation
    ∧ (Handler.saveAnime s now a).map Store.seq = .ok (s.seq + 1) := by
  rw [Handler.saveAnime]
  by_cases hc : s.rows.any (fun r => r.id == s.seq) <;> simp [hc, Except.map]

/-- C7, witness: the empty-titled record at the empty store. -/
theorem saveAnime_accepts_empty_title_witness :
    Handler.saveAnime store0 5 aEmpty ≠ .error .constraintViolation
    ∧ (Handler.saveAnime store0 5 aEmpty).map Store.seq = .ok (store0.seq + 1) :=
  saveAnime_accepts_empty_title store0 5 aEmpty rfl

/-- C8, counterexample: with the deadline expiring after identifier 1
(every fetch from identifier 2 on fails on the expired context), a run of
size 3 still visits identifiers 2 and 3 and counts both as failures —
the claim says the run returns immediately, the in-flight attempt is
counted as neither success nor failure, and unvisited identifiers appear
in neither count. -/
theorem deadline_expiry_still_visits_and_counts :
    (ParseAnimeAndSaveToDB env8 3).visited = [1, 2, 3]
    ∧ (ParseAnimeAndSaveToDB env8 3).successCount = 1
    ∧ (ParseAnimeAndSaveToDB env8 3).failCount = 2 := by decide

/-- C8, amended: when the deadline expires before identifier k's fetch,
the run is not cut short: every identifier in [1, size] is still visited,
each fetch from k on fails immediately and is counted as a failure (at
least size - k + 1 failures), and succeeded + failed still equals size. -/
theorem deadline_expiry_run_continues (env : RunEnv) (k size : Nat)
    (hk : 1 ≤ k) (hks : k ≤ size)
    (hdead : ∀ i, k ≤ i → env.remote i = .noResponse) :
    (ParseAnimeAndSaveToDB env size).visited = List.range' 1 size
    ∧ (ParseAnimeAndSaveToDB env size).successCount
        + (ParseAnimeAndSaveToDB env size).failCount = size
    ∧ size + 1 - k ≤ (ParseAnimeAndSaveToDB env size).failCount := by
  obtain ⟨h1, h2, h3, _⟩ := runStep_foldl_spec env (List.range' 1 size) initState
  have hsum := filter_length_split (fun i => fetchOk env i) (List.range' 1 size)
  have hlen : (List.range' 1 size).length = size := by simp
  have hsub : ((List.range' 1 size).filter (fun i => fetchOk env i)) ⊆
      List.range' 1 (k - 1) := by
    intro i hi
    have him := List.mem_filter.1 hi
    have hir := List.mem_range'_1.1 him.1
    have hfOk : fetchOk env i = true := him.2
    have hik : i < k := by
      by_contra hge
      push_neg at hge
      have hnr := hdead i hge
      simp only [fetchOk, hnr, GetAnimeByID] at hfOk
      exact absurd hfOk (by decide)
    exact List.mem_range'_1.2 ⟨hir.1, by omega⟩
  have hnd : ((List.range' 1 size).filter (fun i => fetchOk env i)).Nodup :=
    (List.nodup_range' _ _).filter _
  have hok : ((List.range' 1 size).filter (fun i => fetchOk env i)).length ≤ k - 1 := by
    have hle := (hnd.subperm hsub).length_le
    simpa using hle
  refine ⟨?_, ?_, ?_⟩
  · rw [ParseAnimeAndSaveToDB, h1]; simp [initState]
  · rw [ParseAnimeAndSaveToDB, h2, h3]
    simp only [initState]
    omega
  · rw [ParseAnimeAndSaveToDB, h3]
    simp only [initState]
    omega

/-- C8, witness: the amended statement at `env8`, k = 2, size = 3. -/
theorem deadline_expiry_run_continues_witness :
    (ParseAnimeAndSaveToDB env8 3).visited = List.range' 1 3
    ∧ (ParseAnimeAndSaveToDB env8 3).successCount
        + (ParseAnimeAndSaveToDB env8 3).failCount = 3
    ∧ 3 + 1 - 2 ≤ (ParseAnimeAndSaveToDB env8 3).failCount :=
  deadline_expiry_run_continues env8 2 3 (by decide) (by decide)
    (fun i hi => by
      simp only [env8]
      rw [if_neg (by omega)])

/-- C9: a search request whose title is empty after trimming is answered
400 without querying the store; a title non-empty after trimming is never
answered 400 (the store is queried; under the Postgres driver the query
then fails and the handler answers 500, not 400). -/
theorem search_blank_title_bad_request (rows : List AnimeRow) (titleParam : String) :
    (trimSpace titleParam = "" → HandleSearchAnime rows titleParam = ⟨400, false⟩)
    ∧ (trimSpace titleParam ≠ "" →
        (HandleSearchAnime rows titleParam).status ≠ 400
        ∧ (HandleSearchAnime rows titleParam).queriedStore = true) := by
  have hq : pqAcceptsQuery animeSearchQuery = false := by decide
  constructor
  · intro h
    simp [HandleSearchAnime, h]
  · intro h
    simp [HandleSearchAnime, h, searchAnimeByTitle, hq]

/-- C9, witness: a whitespace-only title and the title "Fox". -/
theorem search_blank_title_bad_request_witness :
    HandleSearchAnime [foxRow] "   " = ⟨400, false⟩
    ∧ (HandleSearchAnime [foxRow] "Fox").status ≠ 400 :=
  ⟨(search_blank_title_bad_request [foxRow] "   ").1 (by decide),
   ((search_blank_title_bad_request [foxRow] "Fox").2 (by decide)).1⟩

/-- C10: every record built by the search scan loop has an empty image
and the zero aired interval regardless of the stored column values (the
loop scans both columns but never assigns them), whereas the paginated
scan populates both from the row. -/
theorem search_scan_drops_image_and_aired :
    (∀ (rows : List AnimeRow) (title : String) (a : Anime),
        a ∈ searchRowsMatching rows title → a.image = "" ∧ a.aired = Aired.zero)
    ∧ (∀ r : AnimeRow, (scanPaginatedRow r).image = r.image.getD ""
        ∧ (scanPaginatedRow r).aired = r.aired.getD Aired.zero) := by
  constructor
  · intro rows title a ha
    rw [searchRowsMatching] at ha
    rcases List.mem_map.1 ha with ⟨r, _, rfl⟩
    exact ⟨rfl, rfl⟩
  · intro r
    exact ⟨rfl, rfl⟩

/-- C10, witness: the row titled "Fox", whose stored image and aired
columns are non-empty, is returned by the search scan with them blanked,
while the paginated scan keeps them. -/
theorem search_scan_drops_image_and_aired_witness :
    ((scanSearchRow foxRow).image = "" ∧ (scanSearchRow foxRow).aired = Aired.zero)
    ∧ ((scanPaginatedRow foxRow).image = foxRow.image.getD ""
        ∧ (scanPaginatedRow foxRow).aired = foxRow.aired.getD Aired.zero) :=
  ⟨search_scan_drops_image_and_aired.1 [foxRow] "Fox" (scanSearchRow foxRow) (by decide),
   search_scan_drops_image_and_aired.2 foxRow⟩
